import Mathlib

/-!
Verification development for the Jarvis voice-assistant repository
(app/services/calendar_service.py, app/tools/calendar_tool.py,
app/agents/voice_agent.py).

The Python code is shallowly embedded: pure logic becomes Lean functions,
the mutable OAuth-state dictionary and the external token store become
explicit state passed in and returned, and every remote interaction
(the OAuth token endpoint, the Google Calendar API, the mem0 memory store)
is an oracle argument whose outcome is an input of the embedded function.
Python exceptions that the code raises and catches are modeled with
Except / Option; a broad except handler becomes a match on the fallible
result.
-/

/- ===================== OAuth state handling =====================
   CalendarService keeps self._oauth_states : Dict[str, str], one pending
   state per user id (the dict is per integration: each service instance
   owns its own). It is modeled as a function from user id to the
   optional pending state, so at most one state per user is representable,
   exactly as in a Python dict. -/

/-- The pending-state mapping self._oauth_states of CalendarService:
user id to the optional most recently issued OAuth state. -/
def OAuthStates : Type := String → Option String

/-- Dictionary write self._oauth_states[user_id] = state (overwrites). -/
def OAuthStates.set (m : OAuthStates) (user_id state : String) : OAuthStates :=
  fun u => if u = user_id then some state else m u

/-- Dictionary delete del self._oauth_states[user_id]. -/
def OAuthStates.del (m : OAuthStates) (user_id : String) : OAuthStates :=
  fun u => if u = user_id then none else m u

/-- The empty pending-state mapping. -/
def OAuthStates.empty : OAuthStates := fun _ => none

/-- The token payload CalendarService.handle_oauth_callback serializes
to JSON after the code exchange. -/
structure TokenData where
  token : Option String
  refresh_token : Option String
  token_uri : String
  client_id : String
  client_secret : String
  scopes : List String
  deriving DecidableEq

/-- The two ValueError cases of CalendarService.handle_oauth_callback. -/
inductive OAuthCallbackError where
  | stateNotFound
  | csrfMismatch
  deriving DecidableEq

/-- The exact ValueError message texts raised in handle_oauth_callback. -/
def OAuthCallbackError.message : OAuthCallbackError → String
  | .stateNotFound => "OAuth state not found. Please restart the authorization flow."
  | .csrfMismatch => "Invalid OAuth state. Possible CSRF attack."

/-- CalendarService.get_authorization_url: the OAuth library returns the
authorization URL and a fresh random state (both inputs here); the
service records the state under the user id, overwriting any prior
pending state for that user, and returns the URL. -/
def get_authorization_url (authorization_url state : String) (states : OAuthStates)
    (user_id : String) : String × OAuthStates :=
  (authorization_url, states.set user_id state)

/-- CalendarService.handle_oauth_callback: raises StateNotFound when the
user has no pending state; on a state mismatch deletes the stale state
and raises the CSRF error; on a match deletes the state (single use) and
exchanges the code for tokens with the remote authorization server,
modeled by the oracle fetch_token. Returns the outcome and the
pending-state mapping after the call. -/
def handle_oauth_callback (fetch_token : String → TokenData) (states : OAuthStates)
    (code state user_id : String) : Except OAuthCallbackError TokenData × OAuthStates :=
  match states user_id with
  | none => (Except.error OAuthCallbackError.stateNotFound, states)
  | some stored =>
    if stored ≠ state then
      (Except.error OAuthCallbackError.csrfMismatch, states.del user_id)
    else
      (Except.ok (fetch_token code), states.del user_id)

/-- A concrete token payload used by closed witness statements. -/
def tokenDataEx : TokenData :=
  { token := some "access-token-1"
    refresh_token := some "refresh-token-1"
    token_uri := "https://oauth2.googleapis.com/token"
    client_id := "client-id"
    client_secret := "client-secret"
    scopes := [] }

/-- C1: a user with a pending OAuth state who completes the callback with a
state different from the most recently issued one gets the CSRF-mismatch
error, the pending state is deleted as a side effect, and a retry with the
same wrong state fails with the state-not-found error. -/
theorem c1_wrong_state_csrf_then_not_found
    (fetch_token : String → TokenData) (states : OAuthStates)
    (user_id s0 s code code2 : String)
    (hpending : states user_id = some s0) (hne : s ≠ s0) :
    (handle_oauth_callback fetch_token states code s user_id).1 =
        Except.error OAuthCallbackError.csrfMismatch ∧
    (handle_oauth_callback fetch_token states code s user_id).2 user_id = none ∧
    (handle_oauth_callback fetch_token
        (handle_oauth_callback fetch_token states code s user_id).2
        code2 s user_id).1 = Except.error OAuthCallbackError.stateNotFound := by
  have hne' : s0 ≠ s := fun h => hne h.symm
  simp [handle_oauth_callback, hpending, hne', OAuthStates.del]

/-- Witness for C1 at a concrete pending-state mapping. -/
theorem c1_wrong_state_witness :
    (handle_oauth_callback (fun _ => tokenDataEx)
        (OAuthStates.empty.set "u1" "state-0") "code" "state-x" "u1").1 =
        Except.error OAuthCallbackError.csrfMismatch ∧
    (handle_oauth_callback (fun _ => tokenDataEx)
        (OAuthStates.empty.set "u1" "state-0") "code" "state-x" "u1").2 "u1" = none ∧
    (handle_oauth_callback (fun _ => tokenDataEx)
        (handle_oauth_callback (fun _ => tokenDataEx)
          (OAuthStates.empty.set "u1" "state-0") "code" "state-x" "u1").2
        "code" "state-x" "u1").1 = Except.error OAuthCallbackError.stateNotFound :=
  c1_wrong_state_csrf_then_not_found (fun _ => tokenDataEx)
    (OAuthStates.empty.set "u1" "state-0") "u1" "state-0" "state-x" "code" "code"
    (by decide) (by decide)

/-- C2: issuing a second authorization URL for the same user overwrites the
first pending state with the second (the mapping holds at most one state
per user, as the Python dict does), and completing the callback with the
first, overwritten state afterwards fails with the CSRF-mismatch error. -/
theorem c2_second_authorization_overwrites_first
    (fetch_token : String → TokenData) (states : OAuthStates)
    (user_id url1 url2 s1 s2 code : String) (hne : s1 ≠ s2) :
    (get_authorization_url url2 s2
        (get_authorization_url url1 s1 states user_id).2 user_id).2 user_id = some s2 ∧
    (handle_oauth_callback fetch_token
        (get_authorization_url url2 s2
          (get_authorization_url url1 s1 states user_id).2 user_id).2
        code s1 user_id).1 = Except.error OAuthCallbackError.csrfMismatch := by
  have hne' : s2 ≠ s1 := fun h => hne h.symm
  simp [get_authorization_url, OAuthStates.set, handle_oauth_callback, hne']

/-- Witness for C2 at concrete states. -/
theorem c2_second_authorization_witness :
    (get_authorization_url "url2" "state-2"
        (get_authorization_url "url1" "state-1" OAuthStates.empty "u1").2 "u1").2 "u1" =
      some "state-2" ∧
    (handle_oauth_callback (fun _ => tokenDataEx)
        (get_authorization_url "url2" "state-2"
          (get_authorization_url "url1" "state-1" OAuthStates.empty "u1").2 "u1").2
        "code" "state-1" "u1").1 = Except.error OAuthCallbackError.csrfMismatch :=
  c2_second_authorization_overwrites_first (fun _ => tokenDataEx) OAuthStates.empty
    "u1" "url1" "url2" "state-1" "state-2" "code" (by decide)

/- ===================== Stored credentials and refresh =====================
   google.oauth2.credentials.Credentials as the code uses it: access token,
   optional refresh token, endpoint and client fields, and the expired
   property (computed by the library from the stored expiry against the
   clock; modeled as a field). credentials.refresh(Request()) is the one
   network call of this section; its outcome is the oracle refresh_response
   (some new_token = the token endpoint answered, none = the refresh
   raised). -/

/-- The parsed stored credential, as Credentials.from_authorized_user_info
builds it from the JSON kept in the token store. -/
structure Credentials where
  token : Option String
  refresh_token : Option String
  token_uri : String
  client_id : String
  client_secret : String
  scopes : List String
  expired : Bool
  deriving DecidableEq

/-- CalendarService.get_credentials_from_token: refreshes only when the
credential is expired and a refresh token is present; a failed refresh
becomes the ValueError text below; otherwise the credential is returned
as parsed. The second component counts refresh network attempts. -/
def get_credentials_from_token (refresh_response : Option String)
    (stored : Credentials) : Except String Credentials × Nat :=
  if stored.expired && stored.refresh_token.isSome then
    match refresh_response with
    | some new_token =>
        (Except.ok { stored with token := some new_token, expired := false }, 1)
    | none =>
        (Except.error "Calendar credentials expired and could not be refreshed.", 1)
  else
    (Except.ok stored, 0)

/-- A concrete expired credential carrying no refresh token. -/
def credExpiredNoRefresh : Credentials :=
  { token := some "old-access-token"
    refresh_token := none
    token_uri := "https://oauth2.googleapis.com/token"
    client_id := "client-id"
    client_secret := "client-secret"
    scopes := []
    expired := true }

/-- C3 counterexample: on an expired credential with no refresh token,
get_credentials_from_token does not fail with the credential-expired
error; it returns the stored credential unchanged (Except.ok), so the
claimed failure does not occur. -/
theorem c3_counterexample_no_error_raised :
    (get_credentials_from_token none credExpiredNoRefresh).1 =
      Except.ok credExpiredNoRefresh ∧
    (get_credentials_from_token none credExpiredNoRefresh).1 ≠
      Except.error "Calendar credentials expired and could not be refreshed." := by
  constructor
  · rfl
  · intro h
    simp [get_credentials_from_token, credExpiredNoRefresh] at h

/-- C3 amended: loading an expired credential that carries no refresh token
returns the stored credential unchanged without raising any error, and
issues no network call (zero refresh attempts). -/
theorem c3_expired_no_refresh_returned_unchanged
    (refresh_response : Option String) (stored : Credentials)
    (hexp : stored.expired = true) (hnorefresh : stored.refresh_token = none) :
    get_credentials_from_token refresh_response stored = (Except.ok stored, 0) := by
  simp [get_credentials_from_token, hexp, hnorefresh]

/-- Witness for the amended C3 at a concrete credential. -/
theorem c3_expired_no_refresh_witness :
    get_credentials_from_token none credExpiredNoRefresh =
      (Except.ok credExpiredNoRefresh, 0) :=
  c3_expired_no_refresh_returned_unchanged none credExpiredNoRefresh rfl rfl

/- ===================== Python datetime embedding =====================
   The code uses datetime.fromisoformat, timedelta addition, isoformat,
   strftime("%A, %B %d at %I:%M %p") and the tzinfo attribute. The
   embedding covers the grammar the claims exercise: extended ISO dates
   with optional T/space-separated HH:MM[:SS] time and optional +HH:MM,
   -HH:MM or Z offset, whole seconds only. -/

/-- Helper: a two-digit zero-padded decimal rendering. -/
def pad2 (n : Nat) : String := if n < 10 then "0" ++ toString n else toString n

/-- Helper: a four-digit zero-padded decimal rendering (the year field). -/
def pad4 (n : Nat) : String :=
  if n < 10 then "000" ++ toString n
  else if n < 100 then "00" ++ toString n
  else if n < 1000 then "0" ++ toString n
  else toString n

/-- A fixed-offset timezone, as datetime.timezone instances produced by
fromisoformat: the UTC offset in minutes. -/
structure TzOffset where
  minutes : Int
  deriving DecidableEq

/-- str() of a Python fixed-offset timezone: "UTC" for the zero offset,
otherwise UTC+HH:MM or UTC-HH:MM. This is the string the service stores
in the event payload for timezone-aware datetimes. -/
def TzOffset.str (tz : TzOffset) : String :=
  if tz.minutes = 0 then "UTC"
  else
    let sign := if tz.minutes < 0 then "-" else "+"
    let a := tz.minutes.natAbs
    "UTC" ++ sign ++ pad2 (a / 60) ++ ":" ++ pad2 (a % 60)

/-- A Python datetime value as the code manipulates it (microseconds are
outside the covered grammar and always zero). -/
structure PyDateTime where
  year : Nat
  month : Nat
  day : Nat
  hour : Nat
  minute : Nat
  second : Nat
  tzinfo : Option TzOffset
  deriving DecidableEq

/-- Gregorian leap-year test. -/
def isLeapYear (y : Nat) : Bool := (y % 4 == 0 && y % 100 != 0) || (y % 400 == 0)

/-- Number of days in a month of a given year. -/
def daysInMonth (y m : Nat) : Nat :=
  if m = 2 then (if isLeapYear y then 29 else 28)
  else if m = 4 || m = 6 || m = 9 || m = 11 then 30
  else 31

/-- The day after a given calendar date. -/
def nextDay : Nat × Nat × Nat → Nat × Nat × Nat
  | (y, m, d) =>
    if d < daysInMonth y m then (y, m, d + 1)
    else if m < 12 then (y, m + 1, 1)
    else (y + 1, 1, 1)

/-- Adding a number of days to a calendar date. -/
def addDays : Nat → Nat × Nat × Nat → Nat × Nat × Nat
  | 0, ymd => ymd
  | n + 1, ymd => addDays n (nextDay ymd)

/-- Python datetime + timedelta(minutes=k) for k ≥ 0: wall-clock arithmetic
with day carry; the tzinfo and seconds are untouched, exactly as Python
adds a timedelta. -/
def PyDateTime.addMinutes (dt : PyDateTime) (k : Nat) : PyDateTime :=
  let total := dt.hour * 60 + dt.minute + k
  let ymd := addDays (total / 1440) (dt.year, dt.month, dt.day)
  { dt with year := ymd.1, month := ymd.2.1, day := ymd.2.2,
            hour := total % 1440 / 60, minute := total % 60 }

/-- datetime.isoformat(): date, a T separator, HH:MM:SS, and for an aware
value the +HH:MM / -HH:MM offset suffix. -/
def PyDateTime.isoformat (dt : PyDateTime) : String :=
  pad4 dt.year ++ "-" ++ pad2 dt.month ++ "-" ++ pad2 dt.day ++ "T" ++
  pad2 dt.hour ++ ":" ++ pad2 dt.minute ++ ":" ++ pad2 dt.second ++
  (match dt.tzinfo with
   | none => ""
   | some tz =>
     let sign := if tz.minutes < 0 then "-" else "+"
     let a := tz.minutes.natAbs
     sign ++ pad2 (a / 60) ++ ":" ++ pad2 (a % 60))

/-- Days strictly before January 1 of a year, counting from year 1
(the proleptic Gregorian calendar, as Python date.toordinal). -/
def daysBeforeYear (y : Nat) : Nat :=
  let p := y - 1
  365 * p + p / 4 - p / 100 + p / 400

/-- Days of the year strictly before the first of a month. -/
def daysBeforeMonth (y m : Nat) : Nat :=
  (List.range (m - 1)).foldl (fun acc i => acc + daysInMonth y (i + 1)) 0

/-- Python date.toordinal: 0001-01-01 is day 1. -/
def toOrdinal (y m d : Nat) : Nat := daysBeforeYear y + daysBeforeMonth y m + d

/-- Full weekday names as strftime %A prints them, Monday first. -/
def weekdayNames : List String :=
  ["Monday", "Tuesday", "Wednesday", "Thursday", "Friday", "Saturday", "Sunday"]

/-- Full month names as strftime %B prints them. -/
def monthNames : List String :=
  ["January", "February", "March", "April", "May", "June", "July", "August",
   "September", "October", "November", "December"]

/-- strftime("%A, %B %d at %I:%M %p"), the human-readable day/time that
CalendarTool.create_event puts in its success message. -/
def PyDateTime.strftimeDayTime (dt : PyDateTime) : String :=
  let wd := (toOrdinal dt.year dt.month dt.day + 6) % 7
  let hour12 := if dt.hour % 12 = 0 then 12 else dt.hour % 12
  let ampm := if dt.hour < 12 then "AM" else "PM"
  (weekdayNames.getD wd "") ++ ", " ++ (monthNames.getD (dt.month - 1) "") ++ " " ++
  pad2 dt.day ++ " at " ++ pad2 hour12 ++ ":" ++ pad2 dt.minute ++ " " ++ ampm

/-- One decimal digit of a character, if any. -/
def digit? (c : Char) : Option Nat :=
  if c.isDigit then some (c.toNat - 48) else none

/-- Read exactly two decimal digits. -/
def read2 : List Char → Option (Nat × List Char)
  | a :: b :: rest => do
    let x ← digit? a
    let y ← digit? b
    pure (x * 10 + y, rest)
  | _ => none

/-- Read exactly four decimal digits. -/
def read4 : List Char → Option (Nat × List Char)
  | a :: b :: c :: d :: rest => do
    let w ← digit? a
    let x ← digit? b
    let y ← digit? c
    let z ← digit? d
    pure (w * 1000 + x * 100 + y * 10 + z, rest)
  | _ => none

/-- Consume one expected character. -/
def expectChar (c : Char) : List Char → Option (List Char)
  | x :: rest => if x = c then some rest else none
  | [] => none

/-- An optional :SS seconds component; absent means zero seconds with the
input left for the offset parser. -/
def parseSeconds (cs : List Char) : Option (Nat × List Char) :=
  match cs with
  | ':' :: rest =>
    match read2 rest with
    | some (ss, rest2) => if ss ≤ 59 then some (ss, rest2) else none
    | none => none
  | _ => some (0, cs)

/-- The HH:MM tail of a signed UTC offset, which must end the string. -/
def parseTzTail (sign : Int) (cs : List Char) : Option (Option TzOffset) :=
  match read2 cs with
  | some (hh, rest) =>
    match rest with
    | ':' :: rest2 =>
      match read2 rest2 with
      | some (mm, []) =>
        if hh ≤ 23 ∧ mm ≤ 59 then some (some ⟨sign * (hh * 60 + mm)⟩) else none
      | _ => none
    | _ => none
  | none => none

/-- The optional trailing UTC offset: nothing, Z, or +HH:MM / -HH:MM. -/
def parseTz (cs : List Char) : Option (Option TzOffset) :=
  match cs with
  | [] => some none
  | ['Z'] => some (some ⟨0⟩)
  | '+' :: rest => parseTzTail 1 rest
  | '-' :: rest => parseTzTail (-1) rest
  | _ => none

/-- datetime.fromisoformat on the covered grammar: YYYY-MM-DD, optionally a
T or space separator and HH:MM[:SS], optionally an offset; field ranges are
validated as Python does. none models the ValueError. -/
def fromisoformat (s : String) : Option PyDateTime := do
  let cs := s.data
  let (y, cs) ← read4 cs
  let cs ← expectChar '-' cs
  let (mo, cs) ← read2 cs
  let cs ← expectChar '-' cs
  let (d, cs) ← read2 cs
  if 1 ≤ y ∧ 1 ≤ mo ∧ mo ≤ 12 ∧ 1 ≤ d ∧ d ≤ daysInMonth y mo then
    match cs with
    | [] => pure ⟨y, mo, d, 0, 0, 0, none⟩
    | sep :: rest =>
      if sep = 'T' ∨ sep = ' ' then do
        let (hh, rest) ← read2 rest
        let rest ← expectChar ':' rest
        let (mi, rest) ← read2 rest
        let (ss, rest) ← parseSeconds rest
        if hh ≤ 23 ∧ mi ≤ 59 then do
          let tz ← parseTz rest
          pure ⟨y, mo, d, hh, mi, ss, tz⟩
        else none
      else none
  else none

/- ===================== Calendar service, tool and agent =====================
   CalendarService.create_event builds the Google Calendar insert payload;
   the remote insert is the oracle insert_result. CalendarTool.create_event
   wraps it with the connection check, credential loading and the
   voice-friendly message; the token store (app/utils/token_storage, outside
   src/) is modeled from the spec as an external key-value store keyed by
   (user id, integration), read through has_token/get_token and never
   written by these code paths. -/

/-- The body of the events().insert remote call that
CalendarService.create_event sends: summary, location, description and the
start/end dateTime plus timeZone fields. -/
structure EventPayload where
  summary : String
  location : String
  description : String
  start_dateTime : String
  start_timeZone : String
  end_dateTime : String
  end_timeZone : String
  deriving DecidableEq

/-- The fields of the created event that the remote API answers with and
the service reads. -/
structure CreatedEvent where
  id : String
  summary : Option String
  start_dateTime : Option String
  htmlLink : Option String
  deriving DecidableEq

/-- The dictionary CalendarService.create_event returns on success. -/
structure CreatedEventResult where
  id : String
  summary : Option String
  start : Option String
  link : Option String
  deriving DecidableEq

/-- CalendarService.create_event: for a naive start time the caller-supplied
timezone parameter is stored in both timeZone fields; for a timezone-aware
start time the parameter is overwritten with str(start_time.tzinfo). The
oracle insert_result is the remote insert (none = HttpError); the second
component lists the insert calls performed with their payloads. -/
def CalendarService.create_event
    (insert_result : EventPayload → Option CreatedEvent)
    (credentials : Credentials)
    (summary : String) (start_time end_time : PyDateTime)
    (description : String := "") (location : String := "")
    (timezone : String := "America/Los_Angeles") :
    Option CreatedEventResult × List EventPayload :=
  let _ := credentials
  let tz := match start_time.tzinfo with
    | none => timezone
    | some offset => offset.str
  let event : EventPayload :=
    { summary := summary, location := location, description := description,
      start_dateTime := start_time.isoformat, start_timeZone := tz,
      end_dateTime := end_time.isoformat, end_timeZone := tz }
  match insert_result event with
  | some created =>
    (some { id := created.id, summary := created.summary,
            start := created.start_dateTime, link := created.htmlLink }, [event])
  | none => (none, [event])

/-- Modelled from the spec: the external durable credential store
(app/utils/token_storage TokenStorage, not under src/), a key-value store
keyed by (user id, integration name) holding the persisted credential;
has_token tests presence and get_token reads, which is all the calendar
code paths use. -/
def TokenStorage : Type := String → String → Option Credentials

/-- TokenStorage.has_token, the connection check CalendarTool.is_connected
delegates to. -/
def TokenStorage.has_token (st : TokenStorage) (user_id integration : String) : Bool :=
  (st user_id integration).isSome

/-- The structured result dictionary the tool returns. -/
structure ToolResult where
  success : Bool
  message : String
  deriving DecidableEq

/-- The generic failure message of CalendarTool.create_event's broad except
handler, with str(e) interpolated. -/
def toolFailureMessage (detail : String) : String :=
  "Sorry, I couldn't create the event: " ++ detail

/-- The success message of CalendarTool.create_event, embedding the summary
and the strftime day/time of the start. -/
def toolSuccessMessage (summary : String) (start_time : PyDateTime) : String :=
  "I've created an event called '" ++ summary ++ "' for " ++
    start_time.strftimeDayTime ++ ". You can view it in your Google Calendar."

/-- CalendarTool.create_event: connection check, credential load (with
refresh when needed), end time = start plus the duration in minutes,
service call, message formatting. The ValueError that
get_credentials_from_token raises is caught by the broad except handler
and interpolated into the generic failure message. Returns the result,
the token store after the call, and the remote insert calls performed. -/
def CalendarTool.create_event
    (refresh_response : Option String)
    (insert_result : EventPayload → Option CreatedEvent)
    (storage : TokenStorage)
    (user_id summary : String) (start_time : PyDateTime)
    (duration_minutes : Nat := 60) (description : String := "")
    (timezone : String := "America/Los_Angeles") :
    ToolResult × TokenStorage × List EventPayload :=
  match storage user_id "calendar" with
  | none =>
    ({ success := false,
       message := "Calendar is not connected. Please connect your Google Calendar first." },
     storage, [])
  | some stored =>
    match (get_credentials_from_token refresh_response stored).1 with
    | Except.error e =>
      ({ success := false, message := toolFailureMessage e }, storage, [])
    | Except.ok credentials =>
      let end_time := start_time.addMinutes duration_minutes
      match CalendarService.create_event insert_result credentials summary
          start_time end_time description "" timezone with
      | (none, calls) =>
        ({ success := false,
           message := "Failed to create the event. Please check the logs for details." },
         storage, calls)
      | (some _created, calls) =>
        ({ success := true, message := toolSuccessMessage summary start_time },
         storage, calls)

/-- Python truthiness of an optional string: None and the empty string are
falsy. -/
def pyStrOpt (o : Option String) : Option String :=
  match o with
  | some s => if s = "" then none else some s
  | none => none

/-- The str() text of the ValueError datetime.fromisoformat raises. -/
def invalidIsoMessage (s : String) : String :=
  "Invalid isoformat string: '" ++ s ++ "'"

/-- The parse-failure message of the create_calendar_event function tool in
voice_agent, with str(e) interpolated. -/
def parseFailureMessage (detail : String) : String :=
  "Sorry, I couldn't parse the time format. Please provide a valid datetime: " ++ detail

/-- The generic message of create_calendar_event's outermost except handler
in voice_agent (reached only by non-ValueError failures). -/
def genericEventErrorMessage (detail : String) : String :=
  "Sorry, I encountered an error creating the event: " ++ detail

/-- The create_calendar_event function tool of voice_agent: parses the ISO
start time (a failure is the ValueError branch with its specific message
and no tool call), picks the user's declared timezone falling back to the
configured default when the user has none (Python truthiness: an absent or
empty attribute falls back), and delegates to CalendarTool.create_event,
returning its message. Returns the spoken message and the remote insert
calls performed. -/
def create_calendar_event
    (user_timezone : Option String) (settings_user_timezone : String)
    (refresh_response : Option String)
    (insert_result : EventPayload → Option CreatedEvent)
    (storage : TokenStorage) (user_id : String)
    (summary : String) (start_time_str : String) (duration_minutes : Nat := 60) :
    String × List EventPayload :=
  match fromisoformat start_time_str with
  | none => (parseFailureMessage (invalidIsoMessage start_time_str), [])
  | some start_time =>
    let timezone_to_use := match pyStrOpt user_timezone with
      | some tz => tz
      | none => settings_user_timezone
    let r := CalendarTool.create_event refresh_response insert_result storage user_id
      summary start_time duration_minutes "" timezone_to_use
    (r.1.message, r.2.2)

/-- A concrete valid (not expired) stored credential. -/
def credFresh : Credentials :=
  { token := some "fresh-access-token"
    refresh_token := some "refresh-token-1"
    token_uri := "https://oauth2.googleapis.com/token"
    client_id := "client-id"
    client_secret := "client-secret"
    scopes := []
    expired := false }

/-- A concrete remote answer for a successful event insert. -/
def createdEventEx : CreatedEvent :=
  { id := "evt-1", summary := some "Standup",
    start_dateTime := some "2025-11-20T09:00:00",
    htmlLink := some "https://calendar.google.com/event-1" }

/-- A remote-insert oracle that always succeeds with createdEventEx. -/
def insertOkEx : EventPayload → Option CreatedEvent := fun _ => some createdEventEx

/-- A token store holding credFresh for user u1's calendar. -/
def storageFreshEx : TokenStorage :=
  fun u i => if u = "u1" ∧ i = "calendar" then some credFresh else none

/-- The parsed naive start time of the end-to-end scenario. -/
def dtNaiveEx : PyDateTime := ⟨2025, 11, 20, 9, 0, 0, none⟩

/-- A timezone-aware start time carrying a +05:00 fixed offset. -/
def dtAwareEx : PyDateTime := ⟨2025, 11, 20, 14, 0, 0, some ⟨300⟩⟩

/-- C10: when the start time is timezone-aware, CalendarService.create_event
ignores the caller-supplied timezone parameter: both timeZone fields of the
remote payload are the string form of the start time's own tzinfo. -/
theorem c10_aware_tzinfo_overrides_parameter
    (insert_result : EventPayload → Option CreatedEvent) (credentials : Credentials)
    (summary : String) (start_time end_time : PyDateTime)
    (description location timezone : String) (offset : TzOffset)
    (haware : start_time.tzinfo = some offset) :
    (CalendarService.create_event insert_result credentials summary start_time end_time
        description location timezone).2 =
      [{ summary := summary, location := location, description := description,
         start_dateTime := start_time.isoformat, start_timeZone := offset.str,
         end_dateTime := end_time.isoformat, end_timeZone := offset.str }] := by
  simp only [CalendarService.create_event, haware]
  cases insert_result
    { summary := summary, location := location, description := description,
      start_dateTime := start_time.isoformat, start_timeZone := offset.str,
      end_dateTime := end_time.isoformat, end_timeZone := offset.str } <;> rfl

/-- Witness for C10: concrete aware start with offset +05:00 and the
parameter America/New_York; the payload carries UTC+05:00 in both fields. -/
theorem c10_aware_tzinfo_witness :
    (CalendarService.create_event insertOkEx credFresh "Standup" dtAwareEx
        (dtAwareEx.addMinutes 30) "" "" "America/New_York").2 =
      [{ summary := "Standup", location := "", description := "",
         start_dateTime := "2025-11-20T14:00:00+05:00", start_timeZone := "UTC+05:00",
         end_dateTime := "2025-11-20T14:30:00+05:00", end_timeZone := "UTC+05:00" }] :=
  (c10_aware_tzinfo_overrides_parameter insertOkEx credFresh "Standup" dtAwareEx
    (dtAwareEx.addMinutes 30) "" "" "America/New_York" ⟨300⟩ rfl).trans (by decide)

/-- C7: with a well-formed naive ISO start time, a connected user and a
valid credential, the remote create-event call carries the start time
unchanged, the user's declared timezone (falling back to the configured
default when absent), and an end time equal to start plus the duration;
the returned message embeds the summary and the strftime day/time; and
omitting the duration argument is the same call with 60 minutes. -/
theorem c7_naive_start_payload_and_message
    (user_timezone : Option String) (settings_user_timezone : String)
    (refresh_response : Option String)
    (insert_result : EventPayload → Option CreatedEvent)
    (storage : TokenStorage) (user_id summary start_time_str : String)
    (duration_minutes : Nat) (start_time : PyDateTime)
    (stored : Credentials) (created : CreatedEvent)
    (hparse : fromisoformat start_time_str = some start_time)
    (hnaive : start_time.tzinfo = none)
    (hstored : storage user_id "calendar" = some stored)
    (hfresh : stored.expired = false)
    (hinsert : ∀ p, insert_result p = some created) :
    create_calendar_event user_timezone settings_user_timezone refresh_response
        insert_result storage user_id summary start_time_str duration_minutes =
      (toolSuccessMessage summary start_time,
       [{ summary := summary, location := "", description := "",
          start_dateTime := start_time.isoformat,
          start_timeZone := (pyStrOpt user_timezone).getD settings_user_timezone,
          end_dateTime := (start_time.addMinutes duration_minutes).isoformat,
          end_timeZone := (pyStrOpt user_timezone).getD settings_user_timezone }]) ∧
    create_calendar_event user_timezone settings_user_timezone refresh_response
        insert_result storage user_id summary start_time_str =
      create_calendar_event user_timezone settings_user_timezone refresh_response
        insert_result storage user_id summary start_time_str 60 := by
  refine ⟨?_, rfl⟩
  cases huser : pyStrOpt user_timezone <;>
    simp [create_calendar_event, hparse, CalendarTool.create_event, hstored,
      get_credentials_from_token, hfresh, CalendarService.create_event, hnaive,
      hinsert, huser]

/-- Witness for C7, the spec's end-to-end scenario: summary Standup, start
2025-11-20T09:00:00, duration 30, user timezone America/New_York. -/
theorem c7_naive_start_witness :
    create_calendar_event (some "America/New_York") "America/Los_Angeles" none
        insertOkEx storageFreshEx "u1" "Standup" "2025-11-20T09:00:00" 30 =
      ("I've created an event called 'Standup' for Thursday, November 20 at 09:00 AM. You can view it in your Google Calendar.",
       [{ summary := "Standup", location := "", description := "",
          start_dateTime := "2025-11-20T09:00:00", start_timeZone := "America/New_York",
          end_dateTime := "2025-11-20T09:30:00", end_timeZone := "America/New_York" }]) :=
  ((c7_naive_start_payload_and_message (some "America/New_York") "America/Los_Angeles"
    none insertOkEx storageFreshEx "u1" "Standup" "2025-11-20T09:00:00" 30
    dtNaiveEx credFresh createdEventEx (by decide) rfl (by decide) rfl
    (fun _ => rfl)).1).trans (by decide)

/-- Two strings with distinct equal-length prefixes differ whatever is
appended. -/
theorem prefixed_string_ne (p q a b : String) (hlen : p.length = q.length)
    (hne : p ≠ q) : p ++ a ≠ q ++ b := by
  intro h
  apply hne
  have hd : p.data ++ a.data = q.data ++ b.data := by
    have h2 := congrArg String.data h
    simpa [String.data_append] using h2
  exact String.ext (List.append_inj_left hd hlen)

/-- Python substring membership needle in hay, on the underlying character
lists. -/
def pyContains (hay needle : String) : Bool :=
  hay.data.tails.any (fun t => needle.data.isPrefixOf t)

/-- C8: a start-time string that is not parseable as an ISO datetime makes
create_calendar_event return the specific time-parsing failure message and
perform no remote create-event call; that message differs from the generic
error messages of the other failure paths, whatever details they carry. -/
theorem c8_unparseable_start_specific_message
    (user_timezone : Option String) (settings_user_timezone : String)
    (refresh_response : Option String)
    (insert_result : EventPayload → Option CreatedEvent)
    (storage : TokenStorage) (user_id summary start_time_str : String)
    (duration_minutes : Nat)
    (hbad : fromisoformat start_time_str = none) :
    create_calendar_event user_timezone settings_user_timezone refresh_response
        insert_result storage user_id summary start_time_str duration_minutes =
      (parseFailureMessage (invalidIsoMessage start_time_str), []) ∧
    (∀ d1 d2 : String, parseFailureMessage d1 ≠ genericEventErrorMessage d2) ∧
    (∀ d1 d2 : String, parseFailureMessage d1 ≠ toolFailureMessage d2) := by
  refine ⟨?_, ?_, ?_⟩
  · simp [create_calendar_event, hbad]
  · intro d1 d2
    have e1 : "Sorry, I couldn't parse the time format. Please provide a valid datetime: " =
        "Sorry, I c" ++ "ouldn't parse the time format. Please provide a valid datetime: " := by
      decide
    have e2 : "Sorry, I encountered an error creating the event: " =
        "Sorry, I e" ++ "ncountered an error creating the event: " := by decide
    unfold parseFailureMessage genericEventErrorMessage
    rw [e1, e2, String.append_assoc, String.append_assoc]
    exact prefixed_string_ne _ _ _ _ (by decide) (by decide)
  · intro d1 d2
    have e1 : "Sorry, I couldn't parse the time format. Please provide a valid datetime: " =
        "Sorry, I couldn't p" ++ "arse the time format. Please provide a valid datetime: " := by
      decide
    have e2 : "Sorry, I couldn't create the event: " =
        "Sorry, I couldn't c" ++ "reate the event: " := by decide
    unfold parseFailureMessage toolFailureMessage
    rw [e1, e2, String.append_assoc, String.append_assoc]
    exact prefixed_string_ne _ _ _ _ (by decide) (by decide)

/-- Witness for C8 at the spec's scenario input not-a-date. -/
theorem c8_unparseable_start_witness :
    create_calendar_event (some "America/New_York") "America/Los_Angeles" none
        insertOkEx storageFreshEx "u1" "X" "not-a-date" 60 =
      ("Sorry, I couldn't parse the time format. Please provide a valid datetime: Invalid isoformat string: 'not-a-date'",
       []) ∧
    "Sorry, I couldn't parse the time format. Please provide a valid datetime: Invalid isoformat string: 'not-a-date'" ≠
      genericEventErrorMessage "Invalid isoformat string: 'not-a-date'" :=
  have h := c8_unparseable_start_specific_message (some "America/New_York")
    "America/Los_Angeles" none insertOkEx storageFreshEx "u1" "X" "not-a-date" 60
    (by decide)
  ⟨h.1.trans (by decide),
   (by decide : parseFailureMessage (invalidIsoMessage "not-a-date") =
      "Sorry, I couldn't parse the time format. Please provide a valid datetime: Invalid isoformat string: 'not-a-date'") ▸
     h.2.1 (invalidIsoMessage "not-a-date") (invalidIsoMessage "not-a-date")⟩

/-- A concrete expired credential that carries a refresh token. -/
def credExpiredWithRefresh : Credentials :=
  { token := some "old-access-token"
    refresh_token := some "refresh-token-1"
    token_uri := "https://oauth2.googleapis.com/token"
    client_id := "client-id"
    client_secret := "client-secret"
    scopes := []
    expired := true }

/-- A token store holding credExpiredWithRefresh for user u1's calendar. -/
def storageExpiredEx : TokenStorage :=
  fun u i => if u = "u1" ∧ i = "calendar" then some credExpiredWithRefresh else none

/-- C9 amended: when the stored credential is expired and the refresh
exchange fails, CalendarTool.create_event performs no remote create call
and returns the generic failure message with the raw ValueError text
embedded; the message contains the raw error text and contains no
reconnect instruction. -/
theorem c9_expired_unrefreshable_raw_error_message
    (insert_result : EventPayload → Option CreatedEvent)
    (storage : TokenStorage) (user_id summary : String)
    (start_time : PyDateTime) (duration_minutes : Nat)
    (description timezone : String) (stored : Credentials)
    (hstored : storage user_id "calendar" = some stored)
    (hexp : stored.expired = true) (hrt : stored.refresh_token.isSome = true) :
    CalendarTool.create_event none insert_result storage user_id summary start_time
        duration_minutes description timezone =
      ({ success := false,
         message := toolFailureMessage
           "Calendar credentials expired and could not be refreshed." },
       storage, []) ∧
    pyContains
      (toolFailureMessage "Calendar credentials expired and could not be refreshed.")
      "Calendar credentials expired and could not be refreshed." = true ∧
    pyContains
      (toolFailureMessage "Calendar credentials expired and could not be refreshed.")
      "reconnect" = false := by
  refine ⟨?_, by decide, by decide⟩
  simp [CalendarTool.create_event, hstored, get_credentials_from_token, hexp, hrt]

/-- Witness for the amended C9 at a concrete expired credential. -/
theorem c9_expired_unrefreshable_witness :
    CalendarTool.create_event none insertOkEx storageExpiredEx "u1" "Standup"
        dtNaiveEx 30 "" "America/New_York" =
      ({ success := false,
         message := toolFailureMessage
           "Calendar credentials expired and could not be refreshed." },
       storageExpiredEx, []) ∧
    pyContains
      (toolFailureMessage "Calendar credentials expired and could not be refreshed.")
      "Calendar credentials expired and could not be refreshed." = true ∧
    pyContains
      (toolFailureMessage "Calendar credentials expired and could not be refreshed.")
      "reconnect" = false :=
  c9_expired_unrefreshable_raw_error_message insertOkEx storageExpiredEx "u1" "Standup"
    dtNaiveEx 30 "" "America/New_York" credExpiredWithRefresh (by decide) rfl rfl

/-- C9 counterexample: at a concrete expired-unrefreshable credential the
spoken message is the generic failure text with the raw error embedded and
contains no reconnect instruction, so the claimed please-reconnect message
is not produced. -/
theorem c9_counterexample_no_reconnect_message :
    (CalendarTool.create_event none insertOkEx storageExpiredEx "u1" "Standup"
        dtNaiveEx 30 "" "America/New_York").1.message =
      "Sorry, I couldn't create the event: Calendar credentials expired and could not be refreshed." ∧
    pyContains
      (CalendarTool.create_event none insertOkEx storageExpiredEx "u1" "Standup"
        dtNaiveEx 30 "" "America/New_York").1.message "reconnect" = false ∧
    pyContains
      (CalendarTool.create_event none insertOkEx storageExpiredEx "u1" "Standup"
        dtNaiveEx 30 "" "America/New_York").1.message
      "Calendar credentials expired and could not be refreshed." = true := by
  refine ⟨by decide, by decide, by decide⟩

/-- CalendarTool.create_event never writes the token store: the store it
returns is the one it was given, on every path. -/
theorem calendar_tool_storage_unchanged
    (refresh_response : Option String)
    (insert_result : EventPayload → Option CreatedEvent)
    (storage : TokenStorage) (user_id summary : String) (start_time : PyDateTime)
    (duration_minutes : Nat) (description timezone : String) :
    (CalendarTool.create_event refresh_response insert_result storage user_id summary
        start_time duration_minutes description timezone).2.1 = storage := by
  unfold CalendarTool.create_event
  cases h1 : storage user_id "calendar" with
  | none => rfl
  | some stored =>
    cases h2 : (get_credentials_from_token refresh_response stored).1 with
    | error e => simp [h2]
    | ok credentials =>
      rcases h3 : CalendarService.create_event insert_result credentials summary
        start_time (start_time.addMinutes duration_minutes) description "" timezone
        with ⟨opt, calls⟩
      cases opt <;> simp [h2, h3]

/-- C4 amended: loading an expired credential that carries a refresh token
performs the refresh exchange (one network attempt) and yields a credential
whose access token is the newly issued one, different from the stored one;
but nothing writes the renewed token back: CalendarTool.create_event
returns the token store unchanged, so a subsequent read still sees the
original stored credential. -/
theorem c4_refresh_succeeds_but_is_not_persisted
    (insert_result : EventPayload → Option CreatedEvent)
    (storage : TokenStorage) (user_id summary : String)
    (start_time : PyDateTime) (duration_minutes : Nat)
    (description timezone new_token : String) (stored : Credentials)
    (hstored : storage user_id "calendar" = some stored)
    (hexp : stored.expired = true) (hrt : stored.refresh_token.isSome = true)
    (hnew : some new_token ≠ stored.token) :
    get_credentials_from_token (some new_token) stored =
      (Except.ok { stored with token := some new_token, expired := false }, 1) ∧
    ({ stored with token := some new_token, expired := false } : Credentials).token ≠
      stored.token ∧
    (CalendarTool.create_event (some new_token) insert_result storage user_id summary
        start_time duration_minutes description timezone).2.1 = storage ∧
    (CalendarTool.create_event (some new_token) insert_result storage user_id summary
        start_time duration_minutes description timezone).2.1 user_id "calendar" =
      some stored := by
  refine ⟨?_, hnew, calendar_tool_storage_unchanged _ _ _ _ _ _ _ _ _, ?_⟩
  · simp [get_credentials_from_token, hexp, hrt]
  · rw [calendar_tool_storage_unchanged]
    exact hstored

/-- Witness for the amended C4 at a concrete expired credential with a
refresh token: the refreshed access token differs from the stored one and
the store after the call still holds the original credential. -/
theorem c4_refresh_not_persisted_witness :
    get_credentials_from_token (some "new-access-token") credExpiredWithRefresh =
      (Except.ok { credExpiredWithRefresh with
        token := some "new-access-token", expired := false }, 1) ∧
    ({ credExpiredWithRefresh with
        token := some "new-access-token", expired := false } : Credentials).token ≠
      credExpiredWithRefresh.token ∧
    (CalendarTool.create_event (some "new-access-token") insertOkEx storageExpiredEx
        "u1" "Standup" dtNaiveEx 30 "" "America/New_York").2.1 = storageExpiredEx ∧
    (CalendarTool.create_event (some "new-access-token") insertOkEx storageExpiredEx
        "u1" "Standup" dtNaiveEx 30 "" "America/New_York").2.1 "u1" "calendar" =
      some credExpiredWithRefresh :=
  c4_refresh_succeeds_but_is_not_persisted insertOkEx storageExpiredEx "u1" "Standup"
    dtNaiveEx 30 "" "America/New_York" "new-access-token" credExpiredWithRefresh
    (by decide) rfl rfl (by decide)

/-- C4 counterexample: at a concrete expired credential whose refresh
issues the distinct token new-access-token, a read of the store after
CalendarTool.create_event still returns the original credential with the
old access token, so the renewed token was not persisted and the claimed
subsequent read of the updated access token does not happen. -/
theorem c4_counterexample_store_keeps_old_token :
    (CalendarTool.create_event (some "new-access-token") insertOkEx storageExpiredEx
        "u1" "Standup" dtNaiveEx 30 "" "America/New_York").2.1 "u1" "calendar" =
      some credExpiredWithRefresh ∧
    credExpiredWithRefresh.token = some "old-access-token" ∧
    (CalendarTool.create_event (some "new-access-token") insertOkEx storageExpiredEx
        "u1" "Standup" dtNaiveEx 30 "" "America/New_York").2.1 "u1" "calendar" ≠
      some { credExpiredWithRefresh with
        token := some "new-access-token", expired := false } := by
  refine ⟨by decide, rfl, by decide⟩

/- ===================== Memory context manager =====================
   VoiceAssistant.on_user_turn_completed and on_enter in voice_agent.
   Remote mem0 calls are oracles: search is a function of the query,
   top_k and threshold arguments the code passes, returning either a
   response (None or a result list) or a raised exception; add either
   acknowledges or raises. Both handlers wrap every remote interaction
   in try/except, so the embedded functions are total: no outcome of the
   oracles can make the turn fail. -/

/-- One entry of the mem0 search response, with the fields the code reads. -/
structure MemResult where
  memory : Option String
  text : Option String
  deriving DecidableEq

/-- A chat-context message (role and content) as the handler appends it. -/
structure ChatMsg where
  role : String
  content : String
  deriving DecidableEq

/-- Outcome of awaiting one remote call: a value, or a raised exception. -/
inductive Remote (α : Type) where
  | ok (value : α)
  | raised
  deriving DecidableEq

/-- Characters Python str.strip removes. -/
def isPySpace (c : Char) : Bool :=
  c = ' ' ∨ c = '\t' ∨ c = '\n' ∨ c = '\r' ∨ c = '\x0b' ∨ c = '\x0c'

/-- Python str.strip(). -/
def pyStrip (s : String) : String :=
  String.mk (((s.data.dropWhile isPySpace).reverse.dropWhile isPySpace).reverse)

/-- Characters before the first occurrence of c (all of them if absent). -/
def takeUntil (c : Char) : List Char → List Char
  | [] => []
  | x :: xs => if x = c then [] else x :: takeUntil c xs

/-- Characters after the first occurrence of c (nothing if absent). -/
def dropPast (c : Char) : List Char → List Char
  | [] => []
  | x :: xs => if x = c then xs else dropPast c xs

/-- Python paragraph.split(rbracket)[1] for a string containing the
bracket: the segment between the first bracket and the next (or the end). -/
def splitSecondField (s : String) : String :=
  String.mk (takeUntil ']' (dropPast ']' s.data))

/-- The memory-text cleanup in on_user_turn_completed: when the paragraph
contains the marker, keep the second bracket-split field, stripped. -/
def cleanParagraph (p : String) : String :=
  if pyContains p "from [" then
    if pyContains p "]" then pyStrip (splitSecondField p) else p
  else p

/-- result.get, with Python or-truthiness: the memory field, else the text
field, empty strings falsy. -/
def ragParagraph (r : MemResult) : Option String :=
  match pyStrOpt r.memory with
  | some s => some s
  | none => pyStrOpt r.text

/-- VoiceAssistant.on_user_turn_completed: before the reply is generated,
retrieve memories for the user text (top_k 5, threshold 0.3) and, when
any qualify, append one system message to the turn context; then persist
the raw utterance. Both blocks swallow raised exceptions, so a retrieval
failure leaves the context unchanged and a persistence failure leaves the
store unchanged, and the function always returns (the turn proceeds).
Returns the turn context and the memory store after the call. -/
def on_user_turn_completed
    (search : String → Nat → Rat → Remote (Option (List MemResult)))
    (add_outcome : Remote Unit)
    (turn_ctx : List ChatMsg) (store : List (String × String))
    (user_id : String) (text_content : Option String) :
    List ChatMsg × List (String × String) :=
  match pyStrOpt text_content with
  | none => (turn_ctx, store)
  | some user_text =>
    let ctx1 :=
      match search user_text 5 (3 / 10) with
      | Remote.raised => turn_ctx
      | Remote.ok results_opt =>
        match results_opt with
        | none => turn_ctx
        | some results =>
          if results.isEmpty then turn_ctx
          else
            let context_parts := (results.take 5).filterMap
              (fun r => (ragParagraph r).map (fun p => "- " ++ cleanParagraph p))
            if context_parts.isEmpty then turn_ctx
            else
              let msg : ChatMsg :=
                { role := "system"
                  content := "Previous conversation context:\n" ++
                    String.intercalate "\n" context_parts }
              turn_ctx ++ [msg]
    let store1 :=
      match add_outcome with
      | Remote.raised => store
      | Remote.ok _ => store ++ [(user_id, user_text)]
    (ctx1, store1)

/-- Which greeting instruction on_enter hands to the session: the
personalized prompt embedding the listed facts (raw_memories limited to
the top 10), the generic new-user welcome, or the static fallback of the
except handler. -/
inductive GreetPath where
  | personalized (facts : List String)
  | generic
  | fallback
  deriving DecidableEq

/-- The fixed broad greeting query of on_enter. -/
def greetingQuery : String := "user information name activities projects conversations"

/-- The raw-memory filter of on_enter: the stripped memory field, kept when
non-empty and longer than 10 characters. -/
def qualifyingFact (r : MemResult) : Option String :=
  let memory_text := pyStrip (r.memory.getD "")
  if memory_text ≠ "" ∧ memory_text.length > 10 then some memory_text else none

/-- VoiceAssistant.on_enter: searches with the fixed broad query, top_k 15
and threshold 0.05, collects the qualifying facts, and picks the
personalized path (embedding at most the top 10 facts) exactly when at
least one fact qualifies; a raised retrieval becomes the static fallback
greeting, never an error. -/
def on_enter (search : String → Nat → Rat → Remote (Option (List MemResult))) :
    GreetPath :=
  match search greetingQuery 15 (5 / 100) with
  | Remote.raised => GreetPath.fallback
  | Remote.ok results_opt =>
    let raw_memories :=
      match results_opt with
      | none => []
      | some results => results.filterMap qualifyingFact
    if raw_memories.isEmpty then GreetPath.generic
    else GreetPath.personalized (raw_memories.take 10)

/-- C5: when the remote memory store raises during retrieval the turn
context is left unchanged from before the call; when it raises during
persistence the store is left unchanged (no partial write); and when
retrieval returns no results (a falsy response or an empty result list)
the turn context is likewise unmodified. The handler itself is a total
function — no oracle outcome makes the turn fail. -/
theorem c5_memory_failures_leave_turn_unchanged
    (search : String → Nat → Rat → Remote (Option (List MemResult)))
    (add_outcome : Remote Unit)
    (turn_ctx : List ChatMsg) (store : List (String × String))
    (user_id : String) (text_content : Option String) :
    ((∀ q k t, search q k t = Remote.raised) →
      (on_user_turn_completed search add_outcome turn_ctx store user_id
        text_content).1 = turn_ctx) ∧
    (add_outcome = Remote.raised →
      (on_user_turn_completed search add_outcome turn_ctx store user_id
        text_content).2 = store) ∧
    ((∀ q k t, search q k t = Remote.ok none ∨ search q k t = Remote.ok (some [])) →
      (on_user_turn_completed search add_outcome turn_ctx store user_id
        text_content).1 = turn_ctx) := by
  refine ⟨?_, ?_, ?_⟩
  · intro hraise
    unfold on_user_turn_completed
    cases h : pyStrOpt text_content with
    | none => rfl
    | some user_text => simp [hraise user_text 5 (3 / 10)]
  · intro hadd
    unfold on_user_turn_completed
    cases h : pyStrOpt text_content with
    | none => rfl
    | some user_text => simp [hadd]
  · intro hempty
    unfold on_user_turn_completed
    cases h : pyStrOpt text_content with
    | none => rfl
    | some user_text =>
      rcases hempty user_text 5 (3 / 10) with hcase | hcase <;> simp [hcase]

/-- Witness for C5: a raising store on both retrieval and persistence
leaves a concrete turn context and store untouched. -/
theorem c5_memory_failures_witness :
    (on_user_turn_completed (fun _ _ _ => Remote.raised) Remote.raised
      [⟨"user", "hello"⟩] [] "u1" (some "hello")).1 = [⟨"user", "hello"⟩] ∧
    (on_user_turn_completed (fun _ _ _ => Remote.raised) Remote.raised
      [⟨"user", "hello"⟩] [] "u1" (some "hello")).2 = [] :=
  have h := c5_memory_failures_leave_turn_unchanged (fun _ _ _ => Remote.raised)
    Remote.raised [⟨"user", "hello"⟩] [] "u1" (some "hello")
  ⟨h.1 (fun _ _ _ => rfl), h.2.1 rfl⟩

/-- C6: under the wide greeting retrieval (fixed broad query, top_k 15,
threshold 0.05), if no returned fact has stripped length above 10 the
greeting takes the generic path; and whenever the personalized path is
taken its embedded fact list is non-empty, holds at most 10 facts, and
every embedded fact is a qualifying one (non-empty, longer than 10). -/
theorem c6_generic_greeting_without_qualifying_facts
    (search : String → Nat → Rat → Remote (Option (List MemResult)))
    (results : List MemResult)
    (hok : search greetingQuery 15 (5 / 100) = Remote.ok (some results)) :
    ((∀ r ∈ results, (pyStrip (r.memory.getD "")).length ≤ 10) →
      on_enter search = GreetPath.generic) ∧
    (∀ facts, on_enter search = GreetPath.personalized facts →
      facts ≠ [] ∧ facts.length ≤ 10 ∧
        ∀ f ∈ facts, f ≠ "" ∧ f.length > 10) := by
  constructor
  · intro hshort
    unfold on_enter
    rw [hok]
    have hnil : results.filterMap qualifyingFact = [] := by
      rw [List.filterMap_eq_nil_iff]
      intro r hr
      unfold qualifyingFact
      rw [if_neg]
      intro hcond
      have := hshort r hr
      omega
    simp [hnil]
  · intro facts hfacts
    unfold on_enter at hfacts
    rw [hok] at hfacts
    by_cases hnil : (results.filterMap qualifyingFact).isEmpty
    · simp [hnil] at hfacts
    · simp only [hnil, if_false, Bool.false_eq_true] at hfacts
      have hfe : facts = (results.filterMap qualifyingFact).take 10 :=
        (GreetPath.personalized.injEq _ _ ▸ hfacts).symm
      subst hfe
      refine ⟨?_, ?_, ?_⟩
      · have hne : results.filterMap qualifyingFact ≠ [] := by
          simpa [List.isEmpty_iff] using hnil
        intro htake
        rcases List.take_eq_nil_iff.mp htake with h10 | h0
        · exact absurd h10 (by omega)
        · exact hne h0
      · rw [List.length_take]
        exact min_le_left _ _
      · intro f hf
        have hmem : f ∈ results.filterMap qualifyingFact := List.mem_of_mem_take hf
        rcases List.mem_filterMap.mp hmem with ⟨r, _hr, heq⟩
        unfold qualifyingFact at heq
        by_cases hc : pyStrip (r.memory.getD "") ≠ "" ∧
            (pyStrip (r.memory.getD "")).length > 10
        · rw [if_pos hc] at heq
          cases heq
          exact hc
        · rw [if_neg hc] at heq
          cases heq

/-- Witness for C6: a retrieval returning one short fact takes the generic
greeting path. -/
theorem c6_generic_greeting_witness :
    on_enter (fun _ _ _ => Remote.ok (some [{ memory := some "short", text := none }])) =
      GreetPath.generic :=
  (c6_generic_greeting_without_qualifying_facts
    (fun _ _ _ => Remote.ok (some [{ memory := some "short", text := none }]))
    [{ memory := some "short", text := none }] rfl).1 (by decide)
